import Mathlib

/-!
Shallow embedding of the turn-orchestration and retrieval pipeline of the
`ai-research-assistant` repository, covering `src/arxiv_api_client.py`
(data model, feed-entry parsing, `fetch_and_parse_arxiv`) and
`src/response_generation.py` (`_route_llm_output`, `_search_arxiv`,
`generate_response`).

External capabilities (the feed transport, the cross-encoder reranker and the
language model) are passed in as explicit parameters; Python exceptions are
modelled with `Except`; Python mutation of `self` is modelled by explicit
state passing.  Machine text is Lean `String`; JSON payloads are an explicit
`JsonVal` type together with an executable parser modelling `json.loads`.
-/

namespace ARA

/-! ## Python string primitives -/

/-- The `{` character (written via its code point). -/
def lbrace : Char := Char.ofNat 123

/-- The `}` character (written via its code point). -/
def rbrace : Char := Char.ofNat 125

/-- Characters removed by Python `str.strip()` with no arguments
(ASCII whitespace: space, tab, newline, carriage return, vertical tab,
form feed). -/
def isPyWs (c : Char) : Bool :=
  c = ' ' || c = Char.ofNat 9 || c = Char.ofNat 10 || c = Char.ofNat 13 ||
  c = Char.ofNat 11 || c = Char.ofNat 12

/-- Python `str.strip()` on a character list. -/
def pstripList (cs : List Char) : List Char :=
  ((cs.dropWhile isPyWs).reverse.dropWhile isPyWs).reverse

/-- Python `str.strip()`. -/
def pstrip (s : String) : String := String.mk (pstripList s.toList)

/-! ## JSON values and `json.loads` -/

/-- A parsed JSON value, as produced by Python `json.loads`
(`null`/`true`/`false`/number/string/array/object). -/
inductive JsonVal where
  | null
  | bool (b : Bool)
  | num (q : ℚ)
  | str (s : String)
  | arr (xs : List JsonVal)
  | obj (kvs : List (String × JsonVal))

/-- Whitespace skipped by the JSON grammar (space, tab, newline, CR). -/
def isJsonWs (c : Char) : Bool :=
  c = ' ' || c = Char.ofNat 9 || c = Char.ofNat 10 || c = Char.ofNat 13

def skipWs (cs : List Char) : List Char := cs.dropWhile isJsonWs

def isDigit (c : Char) : Bool := 48 ≤ c.toNat && c.toNat ≤ 57

def digVal (c : Char) : Nat := c.toNat - 48

def natOfDigits (ds : List Char) : Nat := ds.foldl (fun a c => a * 10 + digVal c) 0

/-- Hex digit value, for `\uXXXX` escapes. -/
def hexVal (c : Char) : Option Nat :=
  if 48 ≤ c.toNat && c.toNat ≤ 57 then some (c.toNat - 48)
  else if 97 ≤ c.toNat && c.toNat ≤ 102 then some (c.toNat - 87)
  else if 65 ≤ c.toNat && c.toNat ≤ 70 then some (c.toNat - 55)
  else none

/-- JSON string body (the part after the opening quote): returns the decoded
characters and the remaining input after the closing quote.  Fuel-indexed so
that it computes by kernel reduction.  Raw control characters are rejected,
as in Python's `json.loads`. -/
def jstrBody : Nat → List Char → Option (List Char × List Char)
  | 0, _ => none
  | _ + 1, [] => none
  | n + 1, c :: cs =>
    if c = '"' then some ([], cs)
    else if c = '\\' then
      match cs with
      | [] => none
      | e :: cs2 =>
        if e = '"' then (jstrBody n cs2).map (fun p => ('"' :: p.1, p.2))
        else if e = '\\' then (jstrBody n cs2).map (fun p => ('\\' :: p.1, p.2))
        else if e = '/' then (jstrBody n cs2).map (fun p => ('/' :: p.1, p.2))
        else if e = 'b' then (jstrBody n cs2).map (fun p => (Char.ofNat 8 :: p.1, p.2))
        else if e = 'f' then (jstrBody n cs2).map (fun p => (Char.ofNat 12 :: p.1, p.2))
        else if e = 'n' then (jstrBody n cs2).map (fun p => (Char.ofNat 10 :: p.1, p.2))
        else if e = 'r' then (jstrBody n cs2).map (fun p => (Char.ofNat 13 :: p.1, p.2))
        else if e = 't' then (jstrBody n cs2).map (fun p => (Char.ofNat 9 :: p.1, p.2))
        else if e = 'u' then
          match cs2 with
          | h1 :: h2 :: h3 :: h4 :: cs3 =>
            match hexVal h1, hexVal h2, hexVal h3, hexVal h4 with
            | some a, some b, some c3, some d =>
              (jstrBody n cs3).map
                (fun p => (Char.ofNat (((a * 16 + b) * 16 + c3) * 16 + d) :: p.1, p.2))
            | _, _, _, _ => none
          | _ => none
        else none
    else if c.toNat < 32 then none
    else (jstrBody n cs).map (fun p => (c :: p.1, p.2))

/-- JSON number starting at the current position (sign, integer part,
optional fraction, optional exponent), yielding its exact rational value. -/
def jnum (cs : List Char) : Option (ℚ × List Char) :=
  let (neg, cs1) := if cs.head? = some '-' then (true, cs.tail) else (false, cs)
  let ds := cs1.takeWhile isDigit
  let rest1 := cs1.dropWhile isDigit
  if ds.isEmpty then none
  else if ds.length > 1 && ds.head? = some '0' then none
  else
    let (fds, rest2) :=
      if rest1.head? = some '.' then
        (rest1.tail.takeWhile isDigit, rest1.tail.dropWhile isDigit)
      else ([], rest1)
    if rest1.head? = some '.' && fds.isEmpty then none
    else
      let (expOk, expVal, rest3) :=
        if rest2.head? = some 'e' || rest2.head? = some 'E' then
          let (eneg, csE) :=
            if rest2.tail.head? = some '-' then (true, rest2.tail.tail)
            else if rest2.tail.head? = some '+' then (false, rest2.tail.tail)
            else (false, rest2.tail)
          let eds := csE.takeWhile isDigit
          if eds.isEmpty then (false, (0 : Int), csE)
          else
            (true, (if eneg then -(natOfDigits eds : Int) else (natOfDigits eds : Int)),
              csE.dropWhile isDigit)
        else (true, 0, rest2)
      if !expOk then none
      else
        let m : Int :=
          (if neg then -1 else 1) * (natOfDigits (ds ++ fds) : Int)
        let e : Int := expVal - (fds.length : Int)
        let q : ℚ := if 0 ≤ e then ((m * 10 ^ e.toNat : Int) : ℚ) else mkRat m (10 ^ (-e).toNat)
        some (q, rest3)

mutual

/-- One JSON value starting at the current position (leading whitespace
allowed), fuel-indexed. -/
def jval : Nat → List Char → Option (JsonVal × List Char)
  | 0, _ => none
  | n + 1, cs0 =>
    let cs := skipWs cs0
    match cs with
    | [] => none
    | c :: rest =>
      if c = 'n' then
        if ['u', 'l', 'l'].isPrefixOf rest then some (JsonVal.null, rest.drop 3) else none
      else if c = 't' then
        if ['r', 'u', 'e'].isPrefixOf rest then some (JsonVal.bool true, rest.drop 3) else none
      else if c = 'f' then
        if ['a', 'l', 's', 'e'].isPrefixOf rest then some (JsonVal.bool false, rest.drop 4) else none
      else if c = '"' then
        (jstrBody (rest.length + 1) rest).map (fun p => (JsonVal.str (String.mk p.1), p.2))
      else if c = lbrace then
        match skipWs rest with
        | [] => none
        | d :: rest1 =>
          if d = rbrace then some (JsonVal.obj [], rest1)
          else (jobjMembers n (skipWs rest)).map (fun p => (JsonVal.obj p.1, p.2))
      else if c = '[' then
        match skipWs rest with
        | [] => none
        | d :: rest1 =>
          if d = ']' then some (JsonVal.arr [], rest1)
          else (jarrElems n (skipWs rest)).map (fun p => (JsonVal.arr p.1, p.2))
      else if c = '-' || isDigit c then
        (jnum cs).map (fun p => (JsonVal.num p.1, p.2))
      else none

/-- Comma-separated JSON array elements up to the closing `]`. -/
def jarrElems : Nat → List Char → Option (List JsonVal × List Char)
  | 0, _ => none
  | n + 1, cs => do
    let (v, r1) ← jval n cs
    match skipWs r1 with
    | [] => none
    | c :: r3 =>
      if c = ',' then do
        let (vs, r4) ← jarrElems n r3
        pure (v :: vs, r4)
      else if c = ']' then pure ([v], r3)
      else none

/-- Comma-separated `"key": value` JSON object members up to the closing
brace. -/
def jobjMembers : Nat → List Char → Option (List (String × JsonVal) × List Char)
  | 0, _ => none
  | n + 1, cs =>
    match skipWs cs with
    | [] => none
    | c :: r1 =>
      if c = '"' then do
        let (k, r2) ← jstrBody (r1.length + 1) r1
        match skipWs r2 with
        | [] => none
        | d :: r4 =>
          if d = ':' then do
            let (v, r5) ← jval n r4
            match skipWs r5 with
            | [] => none
            | e2 :: r7 =>
              if e2 = ',' then do
                let (kvs, r8) ← jobjMembers n r7
                pure ((String.mk k, v) :: kvs, r8)
              else if e2 = rbrace then pure ([(String.mk k, v)], r7)
              else none
          else none
      else none

end

/-- Python `json.loads`: parse the whole input as a single JSON document;
anything but whitespace left over is an error (`JSONDecodeError ≈ .error`). -/
def json_loads (s : String) : Except Unit JsonVal :=
  let cs := s.toList
  match jval (2 * cs.length + 4) cs with
  | some (v, rest) => if (skipWs rest).isEmpty then Except.ok v else Except.error ()
  | none => Except.error ()

/-! ## Python dict / attribute semantics over `JsonVal` -/

/-- Python exceptions that the embedded code can raise. -/
inductive PyErr where
  | attributeError
  | typeError
  | runtimeError
  | connectionError
deriving DecidableEq

/-- Lookup in a Python `dict` built by `json.loads` from an object literal:
on duplicate keys the later binding wins, so we search the reversed member
list. -/
def dictGet (kvs : List (String × JsonVal)) (k : String) : Option JsonVal :=
  (kvs.reverse.find? (fun p => decide (p.1 = k))).map (fun p => p.2)

/-- Python `output.get(key)`: `dict.get` returns `None` on a missing key; on
a non-dict receiver the attribute access `.get` itself raises
`AttributeError`. -/
def pyGet (v : JsonVal) (k : String) : Except PyErr JsonVal :=
  match v with
  | JsonVal.obj kvs => Except.ok ((dictGet kvs k).getD JsonVal.null)
  | _ => Except.error PyErr.attributeError

/-- Python `v.get(key, default)` with an explicit default. -/
def pyGetD (v : JsonVal) (k : String) (d : JsonVal) : Except PyErr JsonVal :=
  match v with
  | JsonVal.obj kvs => Except.ok ((dictGet kvs k).getD d)
  | _ => Except.error PyErr.attributeError

/-- Python truth-value testing (`if not func_name`): `None`, `False`, `0`,
`""`, `[]` and `\x7b\x7d` are falsy. -/
def isFalsy : JsonVal → Bool
  | JsonVal.null => true
  | JsonVal.bool b => !b
  | JsonVal.num q => decide (q = 0)
  | JsonVal.str s => s.isEmpty
  | JsonVal.arr xs => xs.isEmpty
  | JsonVal.obj kvs => kvs.isEmpty

/-- Python `==` against a string literal: only an equal `str` compares
equal. -/
def isStrEq (v : JsonVal) (t : String) : Bool :=
  match v with
  | JsonVal.str s => decide (s = t)
  | _ => false

/-! ## The regex fallback of `_route_llm_output` -/

def isBrace (c : Char) : Bool := c = lbrace || c = rbrace

/-- Does `pat` occur as a contiguous subsequence of the input? -/
def containsSeq (pat : List Char) : List Char → Bool
  | [] => pat.isEmpty
  | c :: cs => pat.isPrefixOf (c :: cs) || containsSeq pat cs

/-- The literal `"function"` (quotes included) that the regex requires
between the braces. -/
def functionPat : List Char := '"' :: ['f', 'u', 'n', 'c', 't', 'i', 'o', 'n', '"']

/-- `re.search` for the pattern `\x7b[^\x7b\x7d]*"function"[^\x7b\x7d]*\x7d`:
the leftmost brace-delimited, brace-free run containing `"function"`.  A
match starts at an opening brace whose next brace is a closing one with the
pattern in between; otherwise the scan continues one position to the
right. -/
def regexFindFuncObj : List Char → Option (List Char)
  | [] => none
  | c :: cs =>
    if c = lbrace then
      let run := cs.takeWhile (fun d => !isBrace d)
      match cs.dropWhile (fun d => !isBrace d) with
      | d :: _ =>
        if d = rbrace && containsSeq functionPat run then
          some (lbrace :: (run ++ [rbrace]))
        else regexFindFuncObj cs
      | [] => none
    else regexFindFuncObj cs

/-! ## `_route_llm_output` (src/response_generation.py, lines 86-122) -/

/-- The typed action produced by routing: the terminal states of the router.
`plainText` is the "return the text directly" outcome, `noOp` the
`function == "none"` outcome (the method returns `""`), `toolCall q` the
dispatch of `_search_arxiv` with the extracted `query` value, and
`unknownFunc f` the `Error: Unknown function` outcome. -/
inductive RoutedAction where
  | plainText (s : String)
  | noOp
  | toolCall (query : JsonVal)
  | unknownFunc (fn : JsonVal)

/-- The parse phase of `_route_llm_output`: try `json.loads` on the stripped
output, and on failure fall back to the regex extraction (run on the
*unstripped* output, as in the source); `none` means both attempts failed. -/
def routeParsed (llm_output : String) : Option JsonVal :=
  match json_loads (pstrip llm_output) with
  | Except.ok v => some v
  | Except.error _ =>
    match regexFindFuncObj llm_output.toList with
    | some g =>
      match json_loads (String.mk g) with
      | Except.ok v => some v
      | Except.error _ => none
    | none => none

/-- `_route_llm_output`, as a routing decision.  Mirrors the source
line-by-line: parse (with regex fallback), `output.get("function")`,
`output.get("arguments", \x7b\x7d)`, the falsiness check, the `"none"` and
`"search_arxiv"` dispatch, and the unknown-function fallthrough.  `.get` on
a non-dict parse result raises `AttributeError`, which propagates. -/
def route_llm_output (llm_output : String) : Except PyErr RoutedAction :=
  match routeParsed llm_output with
  | none => Except.ok (RoutedAction.plainText llm_output)
  | some output =>
    match pyGet output "function" with
    | Except.error e => Except.error e
    | Except.ok funcName =>
      match pyGetD output "arguments" (JsonVal.obj []) with
      | Except.error e => Except.error e
      | Except.ok args =>
        if isFalsy funcName then Except.ok (RoutedAction.plainText llm_output)
        else if isStrEq funcName "none" then Except.ok RoutedAction.noOp
        else if isStrEq funcName "search_arxiv" then
          match pyGetD args "query" (JsonVal.str "") with
          | Except.error e => Except.error e
          | Except.ok q => Except.ok (RoutedAction.toolCall q)
        else Except.ok (RoutedAction.unknownFunc funcName)

/-! ## Document model (src/arxiv_api_client.py, lines 8-35) -/

/-- `Link` dataclass: a link associated with a paper. -/
structure Link where
  href : String
  rel : String
  type : Option String
  title : Option String
deriving DecidableEq

/-- `Category` dataclass: a category/tag for a paper. -/
structure Category where
  term : String
  scheme : String
deriving DecidableEq

/-- `Paper` dataclass: an arXiv paper. -/
structure Paper where
  id : String
  title : String
  summary : String
  published : String
  updated : String
  authors : List String
  links : List Link
  categories : List Category
  comment : Option String
  journal_ref : Option String
  primary_category : Option String
deriving DecidableEq

/-! ## feedparser entries and `_parse_arxiv_entry` (lines 77-132)

A feedparser entry is duck-typed: every attribute may be absent, which the
source probes with `getattr`/`hasattr`.  We model an entry as a record of
`Option` fields, `getattr e x d` as `Option.getD`, and `hasattr` as
`Option.isSome`. -/

/-- An author object inside `entry.authors`. -/
structure FeedPerson where
  name : Option String
deriving DecidableEq

/-- A link object inside `entry.links`. -/
structure FeedLink where
  href : Option String
  rel : Option String
  type : Option String
  title : Option String
deriving DecidableEq

/-- A tag object inside `entry.tags`. -/
structure FeedTag where
  term : Option String
  scheme : Option String
deriving DecidableEq

/-- A feedparser entry with every attribute the source probes. -/
structure FeedEntry where
  id : Option String
  title : Option String
  summary : Option String
  published : Option String
  updated : Option String
  authors : Option (List FeedPerson)
  links : Option (List FeedLink)
  tags : Option (List FeedTag)
  arxiv_comment : Option String
  arxiv_journal_ref : Option String
  arxiv_primary_category : Option String
deriving DecidableEq

/-- The feed entry with every attribute absent. -/
def emptyEntry : FeedEntry :=
  ⟨none, none, none, none, none, none, none, none, none, none, none⟩

/-- `_parse_arxiv_entry`: parse a single arXiv entry into a `Paper`,
defaulting every missing attribute exactly as the chain of
`getattr`/`hasattr` probes does (note the `.strip()` on `summary`). -/
def _parse_arxiv_entry (entry : FeedEntry) : Paper :=
  let paper_id := entry.id.getD ""
  let title := entry.title.getD ""
  let summary := pstrip (entry.summary.getD "")
  let published := entry.published.getD ""
  let updated := entry.updated.getD ""
  let authors := (entry.authors.getD []).map (fun a => a.name.getD "")
  let links := (entry.links.getD []).map
    (fun l => Link.mk (l.href.getD "") (l.rel.getD "") l.type l.title)
  let categories := (entry.tags.getD []).map
    (fun t => Category.mk (t.term.getD "") (t.scheme.getD ""))
  Paper.mk paper_id title summary published updated authors links categories
    entry.arxiv_comment entry.arxiv_journal_ref entry.arxiv_primary_category

/-! ## `ArxivResponse` and `fetch_and_parse_arxiv` (lines 134-201) -/

/-- `ArxivResponse` dataclass.  Its `__init__` accepts exactly the keyword
arguments `query`, `start`, `max_results`, `papers`. -/
structure ArxivResponse where
  query : String
  start : Int
  max_results : Int
  papers : List Paper
deriving DecidableEq

/-- The keyword-argument names accepted by the generated
`ArxivResponse.__init__`. -/
def arxivResponseFields : List String := ["query", "start", "max_results", "papers"]

/-- CPython raises `TypeError` when a constructor call supplies a keyword
argument that is not a parameter of `__init__`. -/
def ctorKwargsOk (fields kwargs : List String) : Bool :=
  kwargs.all (fun k => fields.contains k)

/-- A printable rendering of a caught exception (`str(e)`), used only to
build the sentinel title. -/
def pyStrOfErr : PyErr → String
  | PyErr.attributeError => "attribute error"
  | PyErr.typeError => "type error"
  | PyErr.runtimeError => "runtime error"
  | PyErr.connectionError => "connection error"

/-- `fetch_and_parse_arxiv`.  The outcome of `feedparser.parse(url)` plus the
iteration over `feed.entries` is an explicit parameter `feed` (the transport
is an external capability).  On success every entry is parsed in order.  On
any exception the handler builds `error_paper` and then evaluates
`ArxivResponse(query=.., start=.., max_results=.., total_results=0,
papers=[error_paper])`; since `total_results` is not a field of the
dataclass, that constructor call raises `TypeError`, which escapes the
function — modelled by the kwargs check below. -/
def fetch_and_parse_arxiv (feed : Except PyErr (List FeedEntry)) (query : String)
    (start : Int) (max_results : Int) : Except PyErr ArxivResponse :=
  match feed with
  | Except.ok entries =>
    Except.ok (ArxivResponse.mk query start max_results (entries.map _parse_arxiv_entry))
  | Except.error e =>
    let error_paper : Paper :=
      Paper.mk "" ("Error: " ++ pyStrOfErr e) "" "" "" [] [] [] none none none
    if ctorKwargsOk arxivResponseFields
        ["query", "start", "max_results", "total_results", "papers"] then
      Except.ok (ArxivResponse.mk query start max_results [error_paper])
    else
      Except.error PyErr.typeError

/-! ## `_search_arxiv` (src/response_generation.py, lines 124-143)

The cross-encoder (`rerank_crossencoder`) is an external capability, passed
in as a scoring function; scores are modelled as exact rationals (the claims
only compare them).  The final LLM synthesis call is represented by the
`synthesize` outcome carrying the scored papers handed to
`_generate_paper_summary`. -/

/-- The observable outcome of `_search_arxiv`: either the literal
"no papers" message returned before any reranking, or a dispatch of
`_generate_paper_summary` on the top-scored papers. -/
inductive SearchOutcome where
  | noPapers (msg : String)
  | synthesize (top : List (Paper × ℚ))
deriving DecidableEq

/-- The comparator realising `sort(key=lambda x: x[1], reverse=True)`:
Python's sort is stable, and a stable sort that puts `x` no later than `y`
exactly when `x`'s score is at least `y`'s is `mergeSort` with this
relation. -/
def pyDescLe (x y : Paper × ℚ) : Bool := decide (y.2 ≤ x.2)

/-- Pair papers with scores, stable-sort descending by score, keep the first
3 (lines 133-138). -/
def rankPapers (papers : List Paper) (scores : List ℚ) : List (Paper × ℚ) :=
  ((papers.zip scores).mergeSort pyDescLe).take 3

/-- `_search_arxiv` given the already-fetched response: a non-empty paper
list is reranked against the original user question and truncated to the
top 3; an empty list short-circuits to the literal message (the sentinel
paper is *not* special-cased — any non-empty list goes to the ranking
branch). -/
def search_arxiv (rerank : String → List String → List ℚ)
    (original_user_question : String) (query : String)
    (arxiv_response : ArxivResponse) : SearchOutcome :=
  if !arxiv_response.papers.isEmpty then
    let scores := rerank original_user_question (arxiv_response.papers.map Paper.summary)
    SearchOutcome.synthesize (rankPapers arxiv_response.papers scores)
  else
    SearchOutcome.noPapers ("No papers found for query: " ++ query)

/-! ## `generate_response` (src/response_generation.py, lines 35-84)

Conversation state is the pair of `self.conversation_history` and
`self.original_user_question`.  The chat-templated LLM call and the
routing/dispatch stage are external effects passed in as `Except`-valued
functions; a `.error` models a raised exception, and the state component of
the result records the mutations already applied when it was raised. -/

/-- Turn roles. -/
inductive Role where
  | system
  | user
  | assistant
deriving DecidableEq

/-- One `\x7b"role": .., "content": ..\x7d` message of the history. -/
structure Turn where
  role : Role
  content : String
deriving DecidableEq

/-- The `SYSTEM_PROMPT` class constant (a triple-quoted literal, newlines
and indentation included). -/
def SYSTEM_PROMPT : String :=
  "\n    You are a search query engineer. Your goal is to transform a user's research question into a precise arXiv API query string.\n\n    Rules:\n    Use field prefixes: ti: (title), au: (author), abs: (abstract), cat: (category).\n    Use Boolean operators: AND, OR, ANDNOT (must be capitalized).\n    Group terms using parentheses.\n    If the user mentions a specific field (e.g., \"find papers by Hinton\"), use au:.\n    If a user is looking for a specific concept, you should use Title(ti:) or Abstract(abs:).\n    Query Expansion: Include synonyms (e.g., \"LLM\" OR \"Large Language Model\").\n\n    [FUNCTION_SCHEMA]\n    \x7b\"function\": \"search_arxiv\", \"arguments\": \x7b\"query\": \"string\"\x7d\x7d\n\n    [EXAMPLES]\n    User: \"Search for quantum computing.\"\n    Assistant: \x7b\"function\": \"search_arxiv\", \"arguments\": \x7b\"query\": \"all:quantum AND all:computing\"\x7d\x7d\n\n    User: \"Find papers by Einstein.\"\n    Assistant: \x7b\"function\": \"search_arxiv\", \"arguments\": \x7b\"query\": \"au:Einstein\"\x7d\x7d\n    "

/-- The system turn appended on the first user message. -/
def systemTurn : Turn := Turn.mk Role.system SYSTEM_PROMPT

/-- The mutable state of a `ResearchAssistant` instance. -/
structure AState where
  conversation_history : List Turn
  original_user_question : String
deriving DecidableEq

/-- `__init__`: empty history, empty cached question. -/
def initState : AState := AState.mk [] ""

/-- The history after the system-prompt insertion (only when the history is
empty) and the user-turn append — the state of
`self.conversation_history` at the moment the LLM is called. -/
def preTurnHistory (st : AState) (user_text : String) : List Turn :=
  (if st.conversation_history.length = 0
    then st.conversation_history ++ [systemTurn]
    else st.conversation_history) ++ [Turn.mk Role.user user_text]

/-- `generate_response`.  `llm` models the chat-template + pipeline call on
the current history (returning `outputs[0]["generated_text"]`), and
`routeExec` models `_route_llm_output` together with whatever dispatch it
performs (its `.error` covers ranker or second-LLM failures).  The returned
state carries the mutations performed up to the point of a raise: the
system/user appends happen before the LLM call, the assistant append — which
stores the raw (stripped) completion, not the routed result — happens only
after routing returned successfully. -/
def generate_response (llm : List Turn → Except PyErr String)
    (routeExec : String → Except PyErr String)
    (st : AState) (user_text : String) : AState × Except PyErr String :=
  let h1 := preTurnHistory st user_text
  let st1 : AState := AState.mk h1 user_text
  match llm h1 with
  | Except.error e => (st1, Except.error e)
  | Except.ok gen =>
    let bot_response := pstrip gen
    match routeExec bot_response with
    | Except.error e => (st1, Except.error e)
    | Except.ok final_response =>
      (AState.mk (h1 ++ [Turn.mk Role.assistant bot_response]) user_text,
        Except.ok final_response)

/-- The external inputs of one `generate_response` call. -/
structure CallOracle where
  llm : List Turn → Except PyErr String
  routeExec : String → Except PyErr String
  user_text : String

/-- Run a sequence of `generate_response` calls against one session,
keeping the state each call leaves behind (also on failure, as the Python
object keeps its mutations when an exception propagates). -/
def runCalls (calls : List CallOracle) (st : AState) : AState :=
  calls.foldl (fun s c => (generate_response c.llm c.routeExec s c.user_text).1) st

/-- Count of system turns in a history. -/
def systemCount (h : List Turn) : Nat :=
  h.countP (fun t => decide (t.role = Role.system))

/-! ## Concrete fixtures used in counterexamples and witnesses -/

/-- A fetch-failure sentinel document as the spec describes it (empty
identifier, empty abstract, no authors, `Error: `-titled). -/
def sentinelPaper : Paper :=
  Paper.mk "" "Error: connection error" "" "" "" [] [] [] none none none

/-- A fetch result whose only document is the error sentinel. -/
def sentinelResp : ArxivResponse := ArxivResponse.mk "q0" 0 50 [sentinelPaper]

/-- Document A of the stability example. -/
def paperA : Paper := Paper.mk "idA" "A" "sumA" "" "" [] [] [] none none none

/-- Document B of the stability example. -/
def paperB : Paper := Paper.mk "idB" "B" "sumB" "" "" [] [] [] none none none

/-- Document C of the stability example. -/
def paperC : Paper := Paper.mk "idC" "C" "sumC" "" "" [] [] [] none none none

/-- A well-formed `search_arxiv` envelope followed by a trailing code fence:
the direct parse fails on the fence, and the flat-object regex cannot match
the envelope because of the nested `arguments` object. -/
def fencedOutput : String :=
  "\x7b\"function\": \"search_arxiv\", \"arguments\": \x7b\"query\": \"au:Hinton\"\x7d\x7d\n```"

/-- The same envelope with surrounding whitespace only. -/
def wsEnvelope : String :=
  "  \n\x7b\"function\": \"search_arxiv\", \"arguments\": \x7b\"query\": \"au:Hinton\"\x7d\x7d \n "

/-- The history invariant of claim C8: the system turn is present, first,
and unique. -/
def SysInv (st : AState) : Prop :=
  st.conversation_history.head? = some systemTurn ∧
  systemCount st.conversation_history = 1

/-! ## Theorems -/

/-- C1: the claim says `fetch_and_parse_arxiv` never raises past its boundary
and on failure returns the one-element error-sentinel sequence.  In the code,
the `except` handler itself passes the unexpected keyword `total_results=0`
to the `ArxivResponse` constructor, so every transport/parse failure escapes
as a `TypeError` instead of the sentinel response: the claim describes the
handler's evident intent, and the code contradicts it. -/
theorem fetch_error_raises_typeError (e : PyErr) (q : String) (s m : Int) :
    fetch_and_parse_arxiv (Except.error e) q s m = Except.error PyErr.typeError := rfl

/-- C9: there is a parse-success input on which the router raises rather than
returning a routed action: an envelope whose `"arguments"` value is a JSON
string makes `args.get("query", "")` raise `AttributeError`. -/
theorem route_nonmapping_arguments_attribute_error :
    route_llm_output "\x7b\"function\": \"search_arxiv\", \"arguments\": \"x\"\x7d"
      = Except.error PyErr.attributeError := rfl

/-- C6: the claim says a raw output whose trimmed content parses as a
non-object JSON value is treated as a parse failure and routed to
`PlainText`.  In the code the successful parse skips the fallback and
`output.get("function")` is then called on a non-dict (here a list), raising
`AttributeError`; the router's own docstring ("else return the text")
promises the fall-through the claim describes. -/
theorem route_bare_array_attribute_error :
    json_loads (pstrip "[1, 2]") = Except.ok (JsonVal.arr [JsonVal.num 1, JsonVal.num 2]) ∧
    route_llm_output "[1, 2]" = Except.error PyErr.attributeError :=
  ⟨rfl, rfl⟩

/-- C10: `_parse_arxiv_entry` is total over missing attributes and fails
closed: each absent attribute defaults to `""`, `[]` or `none` exactly as
claimed, item-level attributes (author name, link href/rel/type/title,
category term/scheme) default per item, and the all-absent entry parses to
the all-default `Paper`. -/
theorem parse_arxiv_entry_defaults (e : FeedEntry) :
    (e.id = none → (_parse_arxiv_entry e).id = "") ∧
    (e.title = none → (_parse_arxiv_entry e).title = "") ∧
    (e.summary = none → (_parse_arxiv_entry e).summary = "") ∧
    (e.published = none → (_parse_arxiv_entry e).published = "") ∧
    (e.updated = none → (_parse_arxiv_entry e).updated = "") ∧
    (e.authors = none → (_parse_arxiv_entry e).authors = []) ∧
    (e.links = none → (_parse_arxiv_entry e).links = []) ∧
    (e.tags = none → (_parse_arxiv_entry e).categories = []) ∧
    ((_parse_arxiv_entry e).comment = e.arxiv_comment) ∧
    ((_parse_arxiv_entry e).journal_ref = e.arxiv_journal_ref) ∧
    ((_parse_arxiv_entry e).primary_category = e.arxiv_primary_category) ∧
    (∀ as, e.authors = some as →
      (_parse_arxiv_entry e).authors = as.map (fun a => a.name.getD "")) ∧
    (∀ ls, e.links = some ls →
      (_parse_arxiv_entry e).links
        = ls.map (fun l => Link.mk (l.href.getD "") (l.rel.getD "") l.type l.title)) ∧
    (∀ ts, e.tags = some ts →
      (_parse_arxiv_entry e).categories
        = ts.map (fun t => Category.mk (t.term.getD "") (t.scheme.getD ""))) ∧
    _parse_arxiv_entry emptyEntry = Paper.mk "" "" "" "" "" [] [] [] none none none := by
  refine ⟨?_, ?_, ?_, ?_, ?_, ?_, ?_, ?_, rfl, rfl, rfl, ?_, ?_, ?_, rfl⟩ <;>
    (intro h; try intro hh) <;> simp_all [_parse_arxiv_entry, pstrip, pstripList]

/-- C10 witness: the defaults at the entry with every attribute absent. -/
theorem parse_arxiv_entry_defaults_witness :
    (_parse_arxiv_entry emptyEntry).id = "" ∧ (_parse_arxiv_entry emptyEntry).authors = [] :=
  ⟨(parse_arxiv_entry_defaults emptyEntry).1 rfl,
    (parse_arxiv_entry_defaults emptyEntry).2.2.2.2.2.1 rfl⟩

/-- C2 counterexample: a fetch result whose only document is the
error-sentinel (empty identifier) is *not* answered with the
`No papers found` message — `_search_arxiv` only checks emptiness, so the
sentinel is reranked and handed to synthesis like any other paper. -/
theorem search_arxiv_sentinel_cex :
    search_arxiv (fun _ ss => ss.map (fun _ => (1 : ℚ))) "question" "q0" sentinelResp
      = SearchOutcome.synthesize [(sentinelPaper, 1)] ∧
    search_arxiv (fun _ ss => ss.map (fun _ => (1 : ℚ))) "question" "q0" sentinelResp
      ≠ SearchOutcome.noPapers "No papers found for query: q0" := by
  have h : search_arxiv (fun _ ss => ss.map (fun _ => (1 : ℚ))) "question" "q0" sentinelResp
      = SearchOutcome.synthesize [(sentinelPaper, 1)] := by
    simp [search_arxiv, sentinelResp, rankPapers, List.mergeSort]
  exact ⟨h, by rw [h]; simp⟩

/-- C2 (amended): only the zero-document case returns the literal
`No papers found for query: <query>` message (with the literal tool-call
query string, and independently of the reranker, which is not consulted);
any non-empty paper list — including one holding only the error-sentinel —
is reranked and dispatched to synthesis. -/
theorem search_arxiv_zero_docs (rerank : String → List String → List ℚ)
    (question query : String) (resp : ArxivResponse) :
    (resp.papers = [] →
      search_arxiv rerank question query resp
        = SearchOutcome.noPapers ("No papers found for query: " ++ query)) ∧
    (resp.papers ≠ [] →
      search_arxiv rerank question query resp
        = SearchOutcome.synthesize
            (rankPapers resp.papers (rerank question (resp.papers.map Paper.summary)))) := by
  constructor
  · intro h
    simp [search_arxiv, h]
  · intro h
    match h2 : resp.papers with
    | [] => exact absurd h2 h
    | p :: ps => simp [search_arxiv, h2]

/-- C2 witness: the zero-document case at a concrete query. -/
theorem search_arxiv_zero_docs_witness :
    search_arxiv (fun _ ss => ss.map (fun _ => (1 : ℚ))) "question" "qq"
        (ArxivResponse.mk "qq" 0 50 [])
      = SearchOutcome.noPapers ("No papers found for query: " ++ "qq") :=
  (search_arxiv_zero_docs (fun _ ss => ss.map (fun _ => (1 : ℚ))) "question" "qq"
    (ArxivResponse.mk "qq" 0 50 [])).1 rfl

/-- C7: the pipeline keeps the at-most-3 highest-scoring documents in
descending score order via a stable sort: the kept list is sorted
descending, has length `min 3` the number of scored documents, every kept
score dominates every dropped score, pairs in fetch order whose scores are
already descending (in particular, ties) keep their relative order, and on
scores `[0.5, 0.9, 0.5]` over `[A, B, C]` the result is `[B, A, C]`. -/
theorem rank_top3_stable_desc :
    (∀ (papers : List Paper) (scores : List ℚ),
      List.Pairwise (fun x y : Paper × ℚ => y.2 ≤ x.2) (rankPapers papers scores) ∧
      (rankPapers papers scores).length = min 3 (papers.zip scores).length ∧
      (∀ x ∈ rankPapers papers scores,
        ∀ y ∈ ((papers.zip scores).mergeSort pyDescLe).drop 3, y.2 ≤ x.2) ∧
      (∀ a b : Paper × ℚ, List.Sublist [a, b] (papers.zip scores) → b.2 ≤ a.2 →
        List.Sublist [a, b] ((papers.zip scores).mergeSort pyDescLe))) ∧
    rankPapers [paperA, paperB, paperC] [mkRat 1 2, mkRat 9 10, mkRat 1 2]
      = [(paperB, mkRat 9 10), (paperA, mkRat 1 2), (paperC, mkRat 1 2)] := by
  have htrans : ∀ a b c : Paper × ℚ,
      pyDescLe a b = true → pyDescLe b c = true → pyDescLe a c = true := by
    intro a b c h1 h2
    simp only [pyDescLe, decide_eq_true_eq] at h1 h2 ⊢
    exact h2.trans h1
  have htotal : ∀ a b : Paper × ℚ, pyDescLe a b || pyDescLe b a := by
    intro a b
    simp only [pyDescLe, Bool.or_eq_true, decide_eq_true_eq]
    exact le_total b.2 a.2
  refine ⟨fun papers scores => ?_, ?_⟩
  · have hsorted := List.sorted_mergeSort htrans htotal (papers.zip scores)
    have hsorted' : ((papers.zip scores).mergeSort pyDescLe).Pairwise
        (fun x y : Paper × ℚ => y.2 ≤ x.2) :=
      hsorted.imp (fun h => by simpa [pyDescLe] using h)
    refine ⟨?_, ?_, ?_, ?_⟩
    · exact List.Pairwise.sublist (List.take_sublist 3 _) hsorted'
    · simp [rankPapers]
    · intro x hx y hy
      have h2 : (((papers.zip scores).mergeSort pyDescLe).take 3 ++
          ((papers.zip scores).mergeSort pyDescLe).drop 3).Pairwise
            (fun x y : Paper × ℚ => y.2 ≤ x.2) := by
        rw [List.take_append_drop]
        exact hsorted'
      exact (List.pairwise_append.mp h2).2.2 x hx y hy
    · intro a b hsub hba
      exact List.pair_sublist_mergeSort htrans htotal
        (by simpa [pyDescLe] using hba) hsub
  · norm_num [rankPapers, List.mergeSort, List.splitAt, List.splitAt.go, List.merge,
      pyDescLe, paperA, paperB, paperC]

/-- C7 witness: stability instantiated at the tie `A`/`C` of the concrete
example — the pair keeps its fetch order through the sort. -/
theorem rank_top3_stable_desc_witness :
    List.Sublist [(paperA, mkRat 1 2), (paperC, mkRat 1 2)]
      (([paperA, paperB, paperC].zip [mkRat 1 2, mkRat 9 10, mkRat 1 2]).mergeSort pyDescLe) :=
  (rank_top3_stable_desc.1 [paperA, paperB, paperC]
      [mkRat 1 2, mkRat 9 10, mkRat 1 2]).2.2.2
    (paperA, mkRat 1 2) (paperC, mkRat 1 2)
    (List.Sublist.cons₂ _ (List.Sublist.cons _ (List.Sublist.refl _)))
    (le_refl _)

/-- C5 counterexample: a well-formed `search_arxiv` envelope followed by a
trailing code fence is routed to `PlainText`, not to the `ToolCall`: the
direct parse fails on the fence, and the regex fallback requires a
brace-free object, which the nested `arguments` object never is. -/
theorem route_fenced_envelope_cex :
    route_llm_output fencedOutput = Except.ok (RoutedAction.plainText fencedOutput) ∧
    route_llm_output fencedOutput
      ≠ Except.ok (RoutedAction.toolCall (JsonVal.str "au:Hinton")) := by
  have h : route_llm_output fencedOutput
      = Except.ok (RoutedAction.plainText fencedOutput) := rfl
  refine ⟨h, fun hc => ?_⟩
  rw [h] at hc
  simp at hc

/-- C5 (amended): for every raw output whose *stripped* text parses as a
JSON object with `function = "search_arxiv"` and an `arguments` mapping
supplying `query = q` — which covers arbitrary surrounding whitespace —
routing yields the `ToolCall` dispatching `_search_arxiv` with exactly `q`.
(With a trailing code fence the parse hypothesis fails and routing instead
falls through to `PlainText`, per the counterexample.) -/
theorem route_search_arxiv_envelope (raw q : String) (kvs akvs : List (String × JsonVal))
    (hparse : json_loads (pstrip raw) = Except.ok (JsonVal.obj kvs))
    (hfn : dictGet kvs "function" = some (JsonVal.str "search_arxiv"))
    (hargs : dictGet kvs "arguments" = some (JsonVal.obj akvs))
    (hq : dictGet akvs "query" = some (JsonVal.str q)) :
    route_llm_output raw = Except.ok (RoutedAction.toolCall (JsonVal.str q)) := by
  have h1 : isFalsy (JsonVal.str "search_arxiv") = false := rfl
  have h2 : isStrEq (JsonVal.str "search_arxiv") "none" = false := rfl
  have h3 : isStrEq (JsonVal.str "search_arxiv") "search_arxiv" = true := rfl
  unfold route_llm_output routeParsed
  rw [hparse]
  simp [pyGet, pyGetD, hfn, hargs, hq, h1, h2, h3]

/-- C5 witness: the envelope surrounded by whitespace routes to the
`ToolCall` with exactly the supplied query. -/
theorem route_search_arxiv_envelope_witness :
    route_llm_output wsEnvelope = Except.ok (RoutedAction.toolCall (JsonVal.str "au:Hinton")) :=
  route_search_arxiv_envelope wsEnvelope "au:Hinton"
    [("function", JsonVal.str "search_arxiv"),
      ("arguments", JsonVal.obj [("query", JsonVal.str "au:Hinton")])]
    [("query", JsonVal.str "au:Hinton")]
    rfl rfl rfl rfl

/-- C3 counterexample: when the LLM call raises, the turn aborts but the
history is *not* what it was before the failing call began — the user turn
(and, on a first call, the system turn) was appended before the call and
stays committed. -/
theorem generate_response_failure_commits_user_cex :
    (generate_response (fun _ => Except.error PyErr.runtimeError) (fun s => Except.ok s)
        initState "hi").2 = Except.error PyErr.runtimeError ∧
    (generate_response (fun _ => Except.error PyErr.runtimeError) (fun s => Except.ok s)
        initState "hi").1.conversation_history ≠ initState.conversation_history := by
  have h : (generate_response (fun _ => Except.error PyErr.runtimeError) (fun s => Except.ok s)
      initState "hi").1.conversation_history = [systemTurn, Turn.mk Role.user "hi"] := rfl
  refine ⟨rfl, fun hc => ?_⟩
  rw [h] at hc
  simp [initState] at hc

/-- C3 (amended): a fatal error at the LLM call or at routing/dispatch
aborts the turn with *no assistant turn committed* — the history at the
abort is exactly the pre-call history extended by the (first-call-only)
system turn and the user turn, which were appended before the failing call
and remain. -/
theorem generate_response_abort_history (llm : List Turn → Except PyErr String)
    (rex : String → Except PyErr String) (st : AState) (u : String) (e : PyErr)
    (h : (generate_response llm rex st u).2 = Except.error e) :
    (generate_response llm rex st u).1.conversation_history = preTurnHistory st u := by
  cases hl : llm (preTurnHistory st u) with
  | error e2 => simp [generate_response, hl]
  | ok g =>
    cases hr : rex (pstrip g) with
    | error e2 => simp [generate_response, hl, hr]
    | ok f =>
      exfalso
      simp [generate_response, hl, hr] at h

/-- C3 witness: the aborted-turn history at a concrete failing LLM call. -/
theorem generate_response_abort_history_witness :
    (generate_response (fun _ => Except.error PyErr.runtimeError) (fun s => Except.ok s)
        initState "hi").1.conversation_history = preTurnHistory initState "hi" :=
  generate_response_abort_history (fun _ => Except.error PyErr.runtimeError)
    (fun s => Except.ok s) initState "hi" PyErr.runtimeError rfl

/-- C4 counterexample: a normally-completing *first* call on a session grows
the history by three turns (system + user + assistant), not two. -/
theorem generate_response_first_call_growth_cex :
    (generate_response (fun _ => Except.ok "hello") (fun s => Except.ok s)
        initState "hi").2 = Except.ok "hello" ∧
    initState.conversation_history.length = 0 ∧
    (generate_response (fun _ => Except.ok "hello") (fun s => Except.ok s)
        initState "hi").1.conversation_history.length = 3 :=
  ⟨rfl, rfl, rfl⟩

/-- C4 (amended): a normally-completing call appends the user turn and then
one assistant turn holding the raw (stripped) completion — not the routed
result, which is what the call returns — so the history grows by exactly two
turns on every call after the first, and by three (system turn included) on
the first call of a session. -/
theorem generate_response_normal_growth (llm : List Turn → Except PyErr String)
    (rex : String → Except PyErr String) (st : AState) (u f : String)
    (h : (generate_response llm rex st u).2 = Except.ok f) :
    ∃ g, llm (preTurnHistory st u) = Except.ok g ∧
      rex (pstrip g) = Except.ok f ∧
      (generate_response llm rex st u).1.conversation_history
        = preTurnHistory st u ++ [Turn.mk Role.assistant (pstrip g)] ∧
      (st.conversation_history ≠ [] →
        (generate_response llm rex st u).1.conversation_history.length
          = st.conversation_history.length + 2) ∧
      (st.conversation_history = [] →
        (generate_response llm rex st u).1.conversation_history.length = 3) := by
  cases hl : llm (preTurnHistory st u) with
  | error e =>
    exfalso
    simp [generate_response, hl] at h
  | ok g =>
    cases hr : rex (pstrip g) with
    | error e =>
      exfalso
      simp [generate_response, hl, hr] at h
    | ok f2 =>
      have hf : f2 = f := by simpa [generate_response, hl, hr] using h
      subst hf
      have hhist : (generate_response llm rex st u).1.conversation_history
          = preTurnHistory st u ++ [Turn.mk Role.assistant (pstrip g)] := by
        simp [generate_response, hl, hr]
      refine ⟨g, rfl, hr, hhist, ?_, ?_⟩
      · intro hne
        have hlen : st.conversation_history.length ≠ 0 := by
          simpa [List.length_eq_zero] using hne
        have hpre : preTurnHistory st u
            = st.conversation_history ++ [Turn.mk Role.user u] := by
          unfold preTurnHistory
          rw [if_neg hlen]
        rw [hhist, hpre]
        simp only [List.length_append, List.length_cons, List.length_nil]
      · intro he
        have hpre : preTurnHistory st u = [systemTurn, Turn.mk Role.user u] := by
          simp [preTurnHistory, he]
        rw [hhist, hpre]
        rfl

/-- C4 witness: the growth facts at a concrete completing first call. -/
theorem generate_response_normal_growth_witness :
    (generate_response (fun _ => Except.ok "hello") (fun s => Except.ok s)
        initState "hi").1.conversation_history.length = 3 := by
  obtain ⟨g, hg, hr, hh, h2, h3⟩ :=
    generate_response_normal_growth (fun _ => Except.ok "hello") (fun s => Except.ok s)
      initState "hi" "hello" rfl
  exact h3 rfl

/-- Helper for C8: the pre-LLM history (with any system-free suffix
appended) starts with the unique system turn, whenever the call starts from
an empty history or from a history already satisfying the invariant. -/
theorem sysInv_aux (st : AState) (u : String) (tail : List Turn)
    (htail : systemCount tail = 0)
    (h : st.conversation_history = [] ∨ SysInv st) :
    (preTurnHistory st u ++ tail).head? = some systemTurn ∧
    systemCount (preTurnHistory st u ++ tail) = 1 := by
  have htail2 : List.countP (fun x => decide (x.role = Role.system)) tail = 0 := by
    simpa [systemCount] using htail
  cases h with
  | inl he =>
    have hpre : preTurnHistory st u = [systemTurn, Turn.mk Role.user u] := by
      simp [preTurnHistory, he]
    constructor
    · rw [hpre]
      rfl
    · simp only [systemCount]
      rw [hpre, List.countP_append, htail2]
      rfl
  | inr hinv =>
    obtain ⟨hh, hc⟩ := hinv
    cases hlist : st.conversation_history with
    | nil => rw [hlist] at hh; simp at hh
    | cons t rest =>
      rw [hlist] at hh hc
      have ht : t = systemTurn := by simpa using hh
      subst ht
      have hpre : preTurnHistory st u
          = (systemTurn :: rest) ++ [Turn.mk Role.user u] := by
        simp [preTurnHistory, hlist]
      constructor
      · rw [hpre]
        rfl
      · simp only [systemCount] at hc ⊢
        rw [hpre, List.countP_append, List.countP_append, hc, htail2]
        rfl

/-- Helper for C8: one `generate_response` call establishes (from an empty
history) or preserves the system-turn invariant, whether it completes or
aborts. -/
theorem gen_sysInv (llm : List Turn → Except PyErr String)
    (rex : String → Except PyErr String) (st : AState) (u : String)
    (h : st.conversation_history = [] ∨ SysInv st) :
    SysInv (generate_response llm rex st u).1 := by
  cases hl : llm (preTurnHistory st u) with
  | error e =>
    have haux := sysInv_aux st u [] (by simp [systemCount]) h
    rw [List.append_nil] at haux
    exact ⟨by simpa [generate_response, hl] using haux.1,
      by simpa [generate_response, hl] using haux.2⟩
  | ok g =>
    cases hr : rex (pstrip g) with
    | error e =>
      have haux := sysInv_aux st u [] (by simp [systemCount]) h
      rw [List.append_nil] at haux
      exact ⟨by simpa [generate_response, hl, hr] using haux.1,
        by simpa [generate_response, hl, hr] using haux.2⟩
    | ok f =>
      have haux := sysInv_aux st u [Turn.mk Role.assistant (pstrip g)]
        (by simp [systemCount, List.countP_cons]) h
      exact ⟨by simpa [generate_response, hl, hr] using haux.1,
        by simpa [generate_response, hl, hr] using haux.2⟩

/-- C8: starting from a fresh session, after any non-empty sequence of
`respond` calls (completing or aborting, with arbitrary external outcomes)
the history contains exactly one system turn and it is the first element:
the system turn is inserted only when the history is empty and never
duplicated. -/
theorem system_turn_once_first (calls : List CallOracle) (hne : calls ≠ []) :
    (runCalls calls initState).conversation_history.head? = some systemTurn ∧
    systemCount (runCalls calls initState).conversation_history = 1 := by
  suffices h : ∀ (cs : List CallOracle) (st : AState),
      (st.conversation_history = [] ∨ SysInv st) → cs ≠ [] → SysInv (runCalls cs st) by
    exact h calls initState (Or.inl rfl) hne
  intro cs
  induction cs with
  | nil => exact fun st _ hne2 => absurd rfl hne2
  | cons c rest ih =>
    intro st hst _
    have hstep : runCalls (c :: rest) st
        = runCalls rest ((generate_response c.llm c.routeExec st c.user_text).1) := rfl
    by_cases hr : rest = []
    · subst hr
      rw [hstep]
      exact gen_sysInv c.llm c.routeExec st c.user_text hst
    · rw [hstep]
      exact ih _ (Or.inr (gen_sysInv c.llm c.routeExec st c.user_text hst)) hr

/-- C8 witness: the invariant after one concrete completed call. -/
theorem system_turn_once_first_witness :
    (runCalls [CallOracle.mk (fun _ => Except.ok "hi") (fun s => Except.ok s) "hello"]
        initState).conversation_history.head? = some systemTurn ∧
    systemCount (runCalls [CallOracle.mk (fun _ => Except.ok "hi") (fun s => Except.ok s)
        "hello"] initState).conversation_history = 1 :=
  system_turn_once_first
    [CallOracle.mk (fun _ => Except.ok "hi") (fun s => Except.ok s) "hello"] (by simp)

end ARA
